import Mathlib

/-!
Shallow embedding of the input pipeline and timeline/judgment engine of the
bevy-midi-playground repository (`src/midi.rs`, `src/states/game.rs`).
Machine floats (`f32`) are modelled as exact rationals; `u8`/`i32`/`usize`
values as `Nat`/`Int` with explicit wrapping where the source casts.
-/

namespace BevyMidi

/-! ## Constants, from `src/states/game.rs` and `src/midi.rs` -/

def NUM_TOTAL_KEYS : Nat := 61
def WHITE_KEY_WIDTH : ℚ := 1
def WHITE_KEY_HEIGHT : ℚ := 11/2
def BLACK_KEY_HEIGHT : ℚ := 7/2
-- 0 = WHITE, 1 = BLACK
def KEY_ORDER : List Int := [0, 1, 0, 1, 0, 0, 1, 0, 1, 0, 1, 0]

def TIMELINE_TOP : ℚ := 30
def TIMELINE_BOTTOM : ℚ := 0
def TIMELINE_LENGTH : ℚ := 10
def TIMELINE_TOTAL_TIME : ℚ := 30

def KEY_HISTORY_LENGTH : Nat := 10

/-! ## MIDI event data model, from `src/midi.rs` -/

inductive MidiEvents
  | Pressed
  | Released
  | Holding
deriving DecidableEq, Repr

structure MidiInputKey where
  timestamp : Nat
  event : MidiEvents
  id : Nat
  intensity : Nat
deriving DecidableEq, Repr

/-- The translation of a raw hardware frame performed inside the `connect`
callback of `select_device` (`src/midi.rs` lines 191-215): frames shorter
than 3 bytes return early producing nothing; otherwise the status byte is
matched as `144 => Pressed, 128 => Released, 160 => Holding, _ => Pressed`
and the event carries `message[1]` as id and `message[2]` as intensity. -/
def parseFrame (stamp : Nat) (message : List Nat) : Option MidiInputKey :=
  match message with
  | b0 :: b1 :: b2 :: _ =>
    let event_type :=
      if b0 = 144 then MidiEvents.Pressed
      else if b0 = 128 then MidiEvents.Released
      else if b0 = 160 then MidiEvents.Holding
      else MidiEvents.Pressed
    some ⟨stamp, event_type, b1, b2⟩
  | _ => none

/-- The history-eviction `while` loop of `sync_keys` (`src/midi.rs` lines
143-145): `while input_state.keys.len() >= KEY_HISTORY_LENGTH
{ input_state.keys.remove(0); }`. -/
def evictOld : List MidiInputKey → List MidiInputKey
  | [] => []
  | k :: rest =>
    if KEY_HISTORY_LENGTH ≤ (k :: rest).length then evictOld rest else k :: rest

/-- The `MidiResponse::Input` branch of `sync_keys` (`src/midi.rs` lines
136-147) restricted to its effect on `input_state.keys`: evict from the
front while at capacity, then push the new event at the back. -/
def syncKeysInput (keys : List MidiInputKey) (input : MidiInputKey) :
    List MidiInputKey :=
  evictOld keys ++ [input]

theorem evictOld_length_le (keys : List MidiInputKey) :
    (evictOld keys).length ≤ KEY_HISTORY_LENGTH - 1 := by
  induction keys with
  | nil => simp [evictOld]
  | cons k rest ih =>
    rw [evictOld]
    split
    · exact ih
    · omega

theorem syncKeysInput_length_le (keys : List MidiInputKey)
    (input : MidiInputKey) :
    (syncKeysInput keys input).length ≤ KEY_HISTORY_LENGTH := by
  have h := evictOld_length_le keys
  simp only [syncKeysInput, List.length_append, List.length_singleton]
  have hK : 1 ≤ KEY_HISTORY_LENGTH := by norm_num [KEY_HISTORY_LENGTH]
  omega

theorem evictOld_at_capacity (keys : List MidiInputKey)
    (h : keys.length = KEY_HISTORY_LENGTH) :
    evictOld keys = keys.tail := by
  match keys with
  | [] => simp [KEY_HISTORY_LENGTH] at h
  | k :: rest =>
    rw [evictOld, if_pos (by omega)]
    have hrest : rest.length = KEY_HISTORY_LENGTH - 1 := by
      simp at h; omega
    match rest with
    | [] => simp [KEY_HISTORY_LENGTH] at hrest
    | r :: rest2 =>
      rw [evictOld, if_neg (by simp at hrest ⊢; omega)]
      rfl

/-! ## Octave remapping and the spawn-time `u8` subtraction
(`get_octave`, `src/states/game.rs` lines 727-734, and
`spawn_music_timeline` lines 246-247) -/

/-- `get_octave` (`src/states/game.rs` lines 727-734):
`(3 - current_octave) * 12` over `i32`. -/
def get_octave (current_octave : Int) : Int :=
  let octave := 3 - current_octave
  let octave_offset := octave * 12
  octave_offset

/-- The `as u8` cast applied to `get_octave`'s result at
`src/states/game.rs` line 246: an `i32 -> u8` cast in Rust keeps the low
8 bits, i.e. reduces mod 256. -/
def octaveOffsetU8 (current_octave : Int) : Nat :=
  ((get_octave current_octave) % 256).toNat

/-- Unsigned 8-bit subtraction as Rust (debug build) performs it:
defined when no underflow occurs, a panic (`none`) otherwise. -/
def u8Sub (a b : Nat) : Option Nat :=
  if b ≤ a then some (a - b) else none

/-- `let real_index = current_item.note - octave_offset;`
(`src/states/game.rs` line 247). -/
def spawnRealIndex (current_octave : Int) (note : Nat) : Option Nat :=
  u8Sub note (octaveOffsetU8 current_octave)

/-! ## Score computation of `check_timeline_collisions`
(`src/states/game.rs` lines 350-367) -/

/-- Rust's `f32 as i32` cast: truncation toward zero (in-range values). -/
def f32toi32 (q : ℚ) : Int :=
  if 0 ≤ q then ⌊q⌋ else ⌈q⌉

/-- The score added for one judged hit at vertical note position `y`
(`src/states/game.rs` lines 350-363):
`accuracy = (WHITE_KEY_HEIGHT - y) / 5.0`;
`mistake_cost = (1000 as f32 * accuracy) as i32` floored at 0;
delta `= 1000 - mistake_cost`. -/
def hitScore (y : ℚ) : Int :=
  let accuracy := (WHITE_KEY_HEIGHT - y) / 5
  let initial_score : Int := 1000
  let mistake_cost := f32toi32 ((initial_score : ℚ) * accuracy)
  let mistake_cost := if mistake_cost < 0 then 0 else mistake_cost
  initial_score - mistake_cost

/-! ## The session timer (bevy `Timer`, `TimerMode::Once`), as used by
`MusicTimelineState.timer` -/

structure TimerState where
  elapsed : ℚ
  duration : ℚ
  paused : Bool
deriving DecidableEq

/-- `Timer::tick` for a once-timer: a paused timer ignores the delta,
otherwise elapsed time advances, clamped to the duration. -/
def TimerState.tick (t : TimerState) (delta : ℚ) : TimerState :=
  if t.paused then t
  else { t with elapsed := min (t.elapsed + delta) t.duration }

/-- `Timer::finished` for a once-timer. -/
def TimerState.finished (t : TimerState) : Bool :=
  t.duration ≤ t.elapsed

/-- `Timer::reset`: elapsed time back to zero. -/
def TimerState.reset (t : TimerState) : TimerState :=
  { t with elapsed := 0 }

def TimerState.pause (t : TimerState) : TimerState :=
  { t with paused := true }

def TimerState.unpause (t : TimerState) : TimerState :=
  { t with paused := false }

/-- The timer created by the debug-UI Start button
(`src/states/game.rs` lines 688-691):
`Timer::new(Duration::from_secs_f32(timeline.total_time), TimerMode::Once)`. -/
def startTimer : TimerState :=
  { elapsed := 0, duration := TIMELINE_TOTAL_TIME, paused := false }

/-- Operations the game applies to the session timer: ticks (from
`animate_music_timeline` / `debug_game_ui`) and pause/unpause. -/
inductive ClockOp
  | tick (delta : ℚ)
  | pause
  | unpause
deriving DecidableEq

def applyClockOp (t : TimerState) : ClockOp → TimerState
  | .tick d => t.tick d
  | .pause => t.pause
  | .unpause => t.unpause

def runClock (t : TimerState) (ops : List ClockOp) : TimerState :=
  ops.foldl applyClockOp t

/-- Total active (unpaused) tick time in a clock-op sequence, starting
from pause flag `paused`. -/
def activeSum (paused : Bool) : List ClockOp → ℚ
  | [] => 0
  | .tick d :: rest => (if paused then 0 else d) + activeSum paused rest
  | .pause :: rest => activeSum true rest
  | .unpause :: rest => activeSum false rest

/-- All tick deltas in the sequence are non-negative. -/
def ticksNonneg (ops : List ClockOp) : Prop :=
  ∀ op ∈ ops, ∀ d : ℚ, op = ClockOp.tick d → 0 ≤ d

/-- The per-note position update of `animate_music_timeline`
(`src/states/game.rs` lines 303-312): with `note_difference =
start_time - current_time` and `note_distance = note_difference *
TIMELINE_TOP / TIMELINE_LENGTH`, the y translation is set to
`TIMELINE_TOP + note_distance`. -/
def notePositionY (start_time current_time : ℚ) : ℚ :=
  let note_difference := start_time - current_time
  let note_distance := note_difference * TIMELINE_TOP / TIMELINE_LENGTH
  TIMELINE_TOP + note_distance

/-! ## The chart and the world state (`src/states/game.rs`) -/

structure MusicTimelineItem where
  time : ℚ
  note : Nat
  length : ℚ
deriving DecidableEq

/-- `MUSIC_TIMELINE` (`src/states/game.rs` lines 104-120). -/
def MUSIC_TIMELINE : List MusicTimelineItem :=
  [⟨1, 38, 3⟩, ⟨2, 39, 3⟩, ⟨3, 40, 3⟩]

/-- A live `TimelineNote` entity: the components attached at spawn
(`src/states/game.rs` lines 274-285): `PianoKeyId(current_item.note)`,
`TimelineNoteTime(current_item.time)` and its transform x/y. -/
structure Note where
  keyId : Nat
  noteTime : ℚ
  x : ℚ
  y : ℚ
deriving DecidableEq

structure MusicTimelineState where
  current : Nat
  playing : Bool
  complete : Bool
  timer : TimerState
deriving DecidableEq

structure WorldState where
  timeline : MusicTimelineState
  score : Int
  notes : List Note
deriving DecidableEq

/-- The initial resources inserted by `GamePlugin::build`
(`src/states/game.rs` lines 128-134): score 0; cursor 0, not playing,
not complete, `Timer::from_seconds(0.0, TimerMode::Once)`. -/
def initWorld : WorldState :=
  { timeline :=
      { current := 0, playing := false, complete := false,
        timer := { elapsed := 0, duration := 0, paused := false } },
    score := 0,
    notes := [] }

/-- The x-placement computed in `spawn_music_timeline`
(`src/states/game.rs` lines 248-266) from the remapped key index:
key type from `KEY_ORDER[real_index % 12]`, white keys at the count of
prior white keys within `KEY_ORDER`, black keys offset by half a key. -/
def spawnPositionX (real_index : Nat) : ℚ :=
  let key_type_index := real_index % 12
  let key_type_id := KEY_ORDER.getD key_type_index 0
  let num_white_keys : ℚ :=
    ((KEY_ORDER.enum.filter
      (fun p => p.1 < real_index && p.2 == 0)).length : ℚ)
  if key_type_id = 0 then num_white_keys
  else num_white_keys - WHITE_KEY_WIDTH / 2

/-- `spawn_music_timeline` (`src/states/game.rs` lines 225-294):
returns early when `complete`; indexes the chart at `current` (panic,
`none`, when out of range); when the item is due, computes the remapped
index by `u8` subtraction (panic, `none`, on underflow), spawns a note
carrying `PianoKeyId(current_item.note)` and `TimelineNoteTime
(current_item.time)` at y `TIMELINE_TOP`, then advances the cursor or
sets `complete`. -/
def spawnMusicTimeline (octave : Int) (w : WorldState) : Option WorldState :=
  if w.timeline.complete then some w
  else
    match MUSIC_TIMELINE.get? w.timeline.current with
    | none => none
    | some current_item =>
      if current_item.time ≤ w.timeline.timer.elapsed then
        match spawnRealIndex octave current_item.note with
        | none => none
        | some real_index =>
          let newNote : Note :=
            { keyId := current_item.note, noteTime := current_item.time,
              x := spawnPositionX real_index, y := TIMELINE_TOP }
          let next_index := w.timeline.current + 1
          let timeline' :=
            if MUSIC_TIMELINE.length > next_index then
              { w.timeline with current := w.timeline.current + 1 }
            else
              { w.timeline with complete := true }
          some { w with notes := w.notes ++ [newNote], timeline := timeline' }
      else some w

/-- `animate_music_timeline` (`src/states/game.rs` lines 296-313): tick
the timer, then set every live note's y from its scheduled time and the
new elapsed clock. -/
def animateMusicTimeline (delta : ℚ) (w : WorldState) : WorldState :=
  let timer' := w.timeline.timer.tick delta
  let current_time := timer'.elapsed
  { w with
    timeline := { w.timeline with timer := timer' },
    notes := w.notes.map
      (fun n => { n with y := notePositionY n.noteTime current_time }) }

/-- Whether one key event judges one live note in
`check_timeline_collisions` (`src/states/game.rs` lines 334-343): the
stored `PianoKeyId` equals the event's `key.id` and the note's y is at
or below `WHITE_KEY_HEIGHT`. The event's kind is never consulted. -/
def hitMatch (key : MidiInputKey) (n : Note) : Bool :=
  n.keyId == key.id && decide (n.y ≤ WHITE_KEY_HEIGHT)

/-- The score accumulated over the event loop and the (fixed, since
despawns are deferred commands) note query snapshot in
`check_timeline_collisions`. -/
def collisionScoreDelta (events : List MidiInputKey) (notes : List Note) :
    Int :=
  events.foldl
    (fun acc key =>
      notes.foldl
        (fun acc2 n => if hitMatch key n then acc2 + hitScore n.y else acc2)
        acc)
    0

/-- `check_timeline_collisions` (`src/states/game.rs` lines 316-383):
returns unchanged on an empty event queue; otherwise every
(event, live note) pair with matching id and y at or below the strike
line adds `hitScore` to the score and marks the note despawned
(despawn commands apply after the loops). -/
def checkTimelineCollisions (events : List MidiInputKey) (w : WorldState) :
    WorldState :=
  if events.isEmpty then w
  else
    { w with
      score := w.score + collisionScoreDelta events w.notes,
      notes := w.notes.filter (fun n => ¬ events.any (fun e => hitMatch e n)) }

/-- `clear_complete_timeline_notes` (`src/states/game.rs` lines
386-396): despawn every note with y at or below `TIMELINE_BOTTOM`. -/
def clearCompleteTimelineNotes (w : WorldState) : WorldState :=
  { w with notes := w.notes.filter (fun n => ¬(n.y ≤ TIMELINE_BOTTOM)) }

/-- The timer tick and completion check at the top of `debug_game_ui`
(`src/states/game.rs` lines 652-657): tick, and when the timer has
finished set `complete := true` and `playing := false`. -/
def debugGameTick (delta : ℚ) (w : WorldState) : WorldState :=
  let timer' := w.timeline.timer.tick delta
  if timer'.finished then
    { w with timeline :=
      { w.timeline with timer := timer', complete := true, playing := false } }
  else
    { w with timeline := { w.timeline with timer := timer' } }

/-- The Start button (`src/states/game.rs` lines 679-692), shown only
while not playing: clears `complete`, sets `playing`, and replaces the
timer with a fresh once-timer over the full track time. -/
def startButton (w : WorldState) : WorldState :=
  if w.timeline.playing then w
  else
    { w with timeline := { w.timeline with
        complete := false, playing := true, timer := startTimer } }

/-- The Unpause button (`src/states/game.rs` lines 694-698), shown only
while not playing and paused. -/
def unpauseButton (w : WorldState) : WorldState :=
  if w.timeline.playing then w
  else if w.timeline.timer.paused then
    { w with timeline :=
      { w.timeline with timer := w.timeline.timer.unpause } }
  else w

/-- The Pause button (`src/states/game.rs` lines 699-704), shown only
while playing. -/
def pauseButton (w : WorldState) : WorldState :=
  if w.timeline.playing then
    { w with timeline :=
      { w.timeline with playing := false, timer := w.timeline.timer.pause } }
  else w

/-- The Reset button (`src/states/game.rs` lines 706-716): stop playing,
cursor back to 0, reset and pause the timer, zero the score. `complete`
and the live notes are untouched (the source carries a TODO about
clearing notes). -/
def resetButton (w : WorldState) : WorldState :=
  { w with
    timeline := { w.timeline with
      playing := false, current := 0,
      timer := (w.timeline.timer.reset).pause },
    score := 0 }

/-- One scheduler/judgment-relevant system execution. `spawnStep` can
fail (`none`) where the Rust panics. -/
inductive GameOp
  | spawnStep (octave : Int)
  | animateStep (delta : ℚ)
  | debugTick (delta : ℚ)
  | startBtn
  | pauseBtn
  | unpauseBtn
  | resetBtn
  | collisions (events : List MidiInputKey)
  | clearNotes
deriving DecidableEq

def applyOp (w : WorldState) : GameOp → Option WorldState
  | .spawnStep octave => spawnMusicTimeline octave w
  | .animateStep delta => some (animateMusicTimeline delta w)
  | .debugTick delta => some (debugGameTick delta w)
  | .startBtn => some (startButton w)
  | .pauseBtn => some (pauseButton w)
  | .unpauseBtn => some (unpauseButton w)
  | .resetBtn => some (resetButton w)
  | .collisions events => some (checkTimelineCollisions events w)
  | .clearNotes => some (clearCompleteTimelineNotes w)

def runGame (w : WorldState) : List GameOp → Option WorldState
  | [] => some w
  | op :: ops =>
    match applyOp w op with
    | none => none
    | some w' => runGame w' ops

/-! ## Theorems -/

/-- Claim C9: every raw hardware frame shorter than 3 bytes is discarded
producing no event, and otherwise the status byte maps to the event kind
by 144 -> Pressed, 128 -> Released, 160 -> Holding, and any other value
-> Pressed, with `message[1]` as key id and `message[2]` as intensity. -/
theorem claim_C9 :
    (∀ (stamp : Nat) (message : List Nat), message.length < 3 →
      parseFrame stamp message = none)
    ∧ (∀ (stamp k v : Nat) (rest : List Nat),
      parseFrame stamp (144 :: k :: v :: rest)
        = some ⟨stamp, MidiEvents.Pressed, k, v⟩)
    ∧ (∀ (stamp k v : Nat) (rest : List Nat),
      parseFrame stamp (128 :: k :: v :: rest)
        = some ⟨stamp, MidiEvents.Released, k, v⟩)
    ∧ (∀ (stamp k v : Nat) (rest : List Nat),
      parseFrame stamp (160 :: k :: v :: rest)
        = some ⟨stamp, MidiEvents.Holding, k, v⟩)
    ∧ (∀ (stamp b0 k v : Nat) (rest : List Nat),
      b0 ≠ 144 → b0 ≠ 128 → b0 ≠ 160 →
      parseFrame stamp (b0 :: k :: v :: rest)
        = some ⟨stamp, MidiEvents.Pressed, k, v⟩) := by
  refine ⟨?_, ?_, ?_, ?_, ?_⟩
  · intro stamp message h
    match message with
    | [] => rfl
    | [_] => rfl
    | [_, _] => rfl
    | _ :: _ :: _ :: _ => simp only [List.length_cons] at h; omega
  · intro stamp k v rest; rfl
  · intro stamp k v rest; rfl
  · intro stamp k v rest; rfl
  · intro stamp b0 k v rest h144 h128 h160
    simp [parseFrame, h144, h128, h160]

/-- Claim C9 witness: a 1-byte frame is discarded; a frame with the
unrecognized status byte 99 becomes a Pressed event. -/
theorem claim_C9_witness :
    parseFrame 5 [1] = none
    ∧ parseFrame 7 [99, 3, 4] = some ⟨7, MidiEvents.Pressed, 3, 4⟩ :=
  ⟨claim_C9.1 5 [1] (by decide),
   claim_C9.2.2.2.2 7 99 3 4 [] (by decide) (by decide) (by decide)⟩

theorem foldl_syncKeysInput_length_le (events : List MidiInputKey)
    (init : List MidiInputKey) (h : init.length ≤ KEY_HISTORY_LENGTH) :
    (events.foldl syncKeysInput init).length ≤ KEY_HISTORY_LENGTH := by
  induction events generalizing init with
  | nil => simpa using h
  | cons e es ih =>
    simp only [List.foldl_cons]
    exact ih _ (syncKeysInput_length_le init e)

/-- Claim C8: the recent-keys history never exceeds 10 entries — after a
single insertion, and along any whole sequence of incoming events
starting from the empty history — and an insertion into a history at
capacity evicts exactly the front (oldest) element, keeping the rest in
order and appending the new event at the back. -/
theorem claim_C8 :
    (∀ (keys : List MidiInputKey) (input : MidiInputKey),
      (syncKeysInput keys input).length ≤ KEY_HISTORY_LENGTH)
    ∧ (∀ events : List MidiInputKey,
      (events.foldl syncKeysInput []).length ≤ KEY_HISTORY_LENGTH)
    ∧ (∀ (keys : List MidiInputKey) (input : MidiInputKey),
      keys.length = KEY_HISTORY_LENGTH →
      syncKeysInput keys input = keys.tail ++ [input]) := by
  refine ⟨syncKeysInput_length_le, ?_, ?_⟩
  · intro events
    exact foldl_syncKeysInput_length_le events []
      (by simp [KEY_HISTORY_LENGTH])
  · intro keys input h
    simp only [syncKeysInput, evictOld_at_capacity keys h]

/-- Claim C8 witness: inserting into a concrete full 10-event history
evicts the oldest event (timestamp 0) and appends the new one. -/
theorem claim_C8_witness :
    ([⟨0, MidiEvents.Pressed, 0, 0⟩, ⟨1, MidiEvents.Pressed, 1, 0⟩,
      ⟨2, MidiEvents.Pressed, 2, 0⟩, ⟨3, MidiEvents.Pressed, 3, 0⟩,
      ⟨4, MidiEvents.Pressed, 4, 0⟩, ⟨5, MidiEvents.Pressed, 5, 0⟩,
      ⟨6, MidiEvents.Pressed, 6, 0⟩, ⟨7, MidiEvents.Pressed, 7, 0⟩,
      ⟨8, MidiEvents.Pressed, 8, 0⟩, ⟨9, MidiEvents.Pressed, 9, 0⟩]
        : List MidiInputKey).length = KEY_HISTORY_LENGTH
    ∧ syncKeysInput
      [⟨0, MidiEvents.Pressed, 0, 0⟩, ⟨1, MidiEvents.Pressed, 1, 0⟩,
       ⟨2, MidiEvents.Pressed, 2, 0⟩, ⟨3, MidiEvents.Pressed, 3, 0⟩,
       ⟨4, MidiEvents.Pressed, 4, 0⟩, ⟨5, MidiEvents.Pressed, 5, 0⟩,
       ⟨6, MidiEvents.Pressed, 6, 0⟩, ⟨7, MidiEvents.Pressed, 7, 0⟩,
       ⟨8, MidiEvents.Pressed, 8, 0⟩, ⟨9, MidiEvents.Pressed, 9, 0⟩]
      ⟨10, MidiEvents.Released, 10, 0⟩
      = [⟨1, MidiEvents.Pressed, 1, 0⟩,
         ⟨2, MidiEvents.Pressed, 2, 0⟩, ⟨3, MidiEvents.Pressed, 3, 0⟩,
         ⟨4, MidiEvents.Pressed, 4, 0⟩, ⟨5, MidiEvents.Pressed, 5, 0⟩,
         ⟨6, MidiEvents.Pressed, 6, 0⟩, ⟨7, MidiEvents.Pressed, 7, 0⟩,
         ⟨8, MidiEvents.Pressed, 8, 0⟩, ⟨9, MidiEvents.Pressed, 9, 0⟩,
         ⟨10, MidiEvents.Released, 10, 0⟩] := by
  refine ⟨by decide, ?_⟩
  rw [claim_C8.2.2 _ _ (by decide)]
  rfl

theorem ticksNonneg_of_cons {op : ClockOp} {ops : List ClockOp}
    (h : ticksNonneg (op :: ops)) : ticksNonneg ops := by
  intro o ho d hd
  exact h o (List.mem_cons_of_mem _ ho) d hd

theorem activeSum_nonneg (ops : List ClockOp) :
    ∀ p : Bool, ticksNonneg ops → 0 ≤ activeSum p ops := by
  induction ops with
  | nil => intro p _; simp [activeSum]
  | cons op rest ih =>
    intro p h
    have hrest := ticksNonneg_of_cons h
    match op with
    | .tick d =>
      have hd : 0 ≤ d := h _ (List.mem_cons_self _ _) d rfl
      have h2 := ih p hrest
      rw [activeSum]
      cases p with
      | true => simpa using h2
      | false =>
        simp only [Bool.false_eq_true, if_false]
        positivity
    | .pause => rw [activeSum]; exact ih true hrest
    | .unpause => rw [activeSum]; exact ih false hrest

theorem runClock_elapsed (ops : List ClockOp) :
    ∀ s : TimerState, ticksNonneg ops → 0 ≤ s.elapsed →
    s.elapsed + activeSum s.paused ops ≤ s.duration →
    (runClock s ops).elapsed = s.elapsed + activeSum s.paused ops := by
  induction ops with
  | nil => intro s _ _ _; simp [runClock, activeSum]
  | cons op rest ih =>
    intro s hops he hdur
    have hrest : ticksNonneg rest := ticksNonneg_of_cons hops
    obtain ⟨e, dur, p⟩ := s
    simp only [TimerState.elapsed, TimerState.paused, TimerState.duration]
      at he hdur ⊢
    have hstep : runClock ⟨e, dur, p⟩ (op :: rest)
        = runClock (applyClockOp ⟨e, dur, p⟩ op) rest := rfl
    rw [hstep]
    match op with
    | .tick d =>
      have hd : 0 ≤ d := hops _ (List.mem_cons_self _ _) d rfl
      cases p with
      | true =>
        have h1 : applyClockOp ⟨e, dur, true⟩ (.tick d)
            = ⟨e, dur, true⟩ := by
          simp [applyClockOp, TimerState.tick]
        rw [h1]
        simp only [activeSum, if_true, zero_add, reduceIte] at hdur ⊢
        exact ih ⟨e, dur, true⟩ hrest he hdur
      | false =>
        have hsum : 0 ≤ activeSum false rest :=
          activeSum_nonneg rest false hrest
        simp only [activeSum, Bool.false_eq_true, if_false] at hdur ⊢
        have hle : e + d ≤ dur := by linarith
        have h1 : applyClockOp ⟨e, dur, false⟩ (.tick d)
            = ⟨e + d, dur, false⟩ := by
          simp [applyClockOp, TimerState.tick, min_eq_left hle]
        rw [h1]
        have h2 := ih ⟨e + d, dur, false⟩ hrest (by positivity)
          (by simpa [add_assoc] using hdur)
        simp only [TimerState.elapsed, TimerState.paused] at h2
        rw [h2]; ring
    | .pause =>
      have h1 : applyClockOp ⟨e, dur, p⟩ .pause = ⟨e, dur, true⟩ := rfl
      rw [h1]
      simp only [activeSum] at hdur ⊢
      exact ih ⟨e, dur, true⟩ hrest he hdur
    | .unpause =>
      have h1 : applyClockOp ⟨e, dur, p⟩ .unpause = ⟨e, dur, false⟩ := rfl
      rw [h1]
      simp only [activeSum] at hdur ⊢
      exact ih ⟨e, dur, false⟩ hrest he hdur

/-- Claim C7: starting from the fresh session timer, after any sequence
of ticks, pauses and unpauses with non-negative deltas whose active
(unpaused) time `t` stays within the track duration, a note scheduled
at `t0` sits at exactly `TIMELINE_TOP + (t0 - t) * TIMELINE_TOP /
TIMELINE_LENGTH`: position is a pure function of active elapsed time,
unaffected by how pauses and resumes interleave; and
`animate_music_timeline` writes exactly this position to every live
note. -/
theorem claim_C7 :
    (∀ (t0 : ℚ) (ops : List ClockOp), ticksNonneg ops →
      activeSum false ops ≤ TIMELINE_TOTAL_TIME →
      notePositionY t0 (runClock startTimer ops).elapsed
        = TIMELINE_TOP
          + (t0 - activeSum false ops) * TIMELINE_TOP / TIMELINE_LENGTH)
    ∧ (∀ (delta : ℚ) (w : WorldState),
      (animateMusicTimeline delta w).notes
        = w.notes.map (fun n =>
          { n with
            y := notePositionY n.noteTime
              ((w.timeline.timer.tick delta).elapsed) })) := by
  constructor
  · intro t0 ops hops hsum
    have h := runClock_elapsed ops startTimer hops (le_refl 0)
      (by simpa [startTimer] using hsum)
    rw [h]
    simp [startTimer, notePositionY]
  · intro delta w
    rfl

/-- Claim C7 witness: a run that ticks 1 second, pauses, receives a
5-second tick while paused, resumes and ticks 2 more seconds has 3
seconds of active time, and a note scheduled at `t0 = 1` sits at
`30 + (1 - 3) * 30 / 10 = 24`. -/
theorem claim_C7_witness :
    notePositionY 1 (runClock startTimer
      [ClockOp.tick 1, ClockOp.pause, ClockOp.tick 5,
       ClockOp.unpause, ClockOp.tick 2]).elapsed = 24 := by
  have hops : ticksNonneg
      [ClockOp.tick 1, ClockOp.pause, ClockOp.tick 5,
       ClockOp.unpause, ClockOp.tick 2] := by
    intro op hop d hd
    subst hd
    simp only [List.mem_cons, List.not_mem_nil, or_false] at hop
    rcases hop with h | h | h | h | h <;>
      first
        | (injection h with h'; subst h'; norm_num)
        | exact absurd h (by simp)
  have hsum : activeSum false
      [ClockOp.tick 1, ClockOp.pause, ClockOp.tick 5,
       ClockOp.unpause, ClockOp.tick 2] ≤ TIMELINE_TOTAL_TIME := by
    norm_num [activeSum, TIMELINE_TOTAL_TIME]
  have h := claim_C7.1 1 _ hops hsum
  rw [h]
  norm_num [activeSum, TIMELINE_TOP, TIMELINE_LENGTH]

theorem hitScore_nonneg {y : ℚ} (hy : 1/2 ≤ y) : 0 ≤ hitScore y := by
  have hq : ((1000 : Int) : ℚ) * ((WHITE_KEY_HEIGHT - y) / 5) ≤ 1000 := by
    rw [WHITE_KEY_HEIGHT]; push_cast; linarith
  simp only [hitScore, f32toi32]
  split_ifs with h1 h2 h3 <;> try omega
  · have hfl :
        ⌊((1000 : Int) : ℚ) * ((WHITE_KEY_HEIGHT - y) / 5)⌋ ≤ (1000 : Int) := by
      calc ⌊((1000 : Int) : ℚ) * ((WHITE_KEY_HEIGHT - y) / 5)⌋
          ≤ ⌊(1000 : ℚ)⌋ := Int.floor_le_floor hq
        _ = 1000 := by norm_num
    omega
  · have hcl :
        ⌈((1000 : Int) : ℚ) * ((WHITE_KEY_HEIGHT - y) / 5)⌉ ≤ (0 : Int) :=
      Int.ceil_le.mpr (by exact_mod_cast le_of_lt (lt_of_not_le h1))
    omega

theorem hitScore_neg {y : ℚ} (hy : y ≤ 99/200) : hitScore y < 0 := by
  have hq :
      (1001 : ℚ) ≤ ((1000 : Int) : ℚ) * ((WHITE_KEY_HEIGHT - y) / 5) := by
    rw [WHITE_KEY_HEIGHT]; push_cast; linarith
  have hq0 :
      (0 : ℚ) ≤ ((1000 : Int) : ℚ) * ((WHITE_KEY_HEIGHT - y) / 5) := by
    linarith
  have hfl :
      (1001 : Int) ≤ ⌊((1000 : Int) : ℚ) * ((WHITE_KEY_HEIGHT - y) / 5)⌋ := by
    rw [Int.le_floor]; exact_mod_cast hq
  simp only [hitScore, f32toi32, if_pos hq0]
  split_ifs with h1
  · omega
  · omega

theorem notes_foldl_score_le (key : MidiInputKey) (notes : List Note)
    (hn : ∀ n ∈ notes, 1/2 ≤ n.y) :
    ∀ acc : Int, acc ≤ notes.foldl
      (fun acc2 n => if hitMatch key n then acc2 + hitScore n.y else acc2)
      acc := by
  induction notes with
  | nil => intro acc; simp
  | cons n ns ih =>
    intro acc
    have hns : ∀ m ∈ ns, 1/2 ≤ m.y := fun m hm =>
      hn m (List.mem_cons_of_mem _ hm)
    simp only [List.foldl_cons]
    split_ifs with h
    · have h1 : 0 ≤ hitScore n.y :=
        hitScore_nonneg (hn n (List.mem_cons_self _ _))
      calc acc ≤ acc + hitScore n.y := by omega
        _ ≤ _ := ih hns _
    · exact ih hns acc

theorem collisionScoreDelta_nonneg (events : List MidiInputKey)
    (notes : List Note) (hn : ∀ n ∈ notes, 1/2 ≤ n.y) :
    0 ≤ collisionScoreDelta events notes := by
  rw [collisionScoreDelta]
  suffices h : ∀ acc : Int, acc ≤ events.foldl
      (fun acc key => notes.foldl
        (fun acc2 n => if hitMatch key n then acc2 + hitScore n.y else acc2)
        acc)
      acc by exact h 0
  induction events with
  | nil => intro acc; simp
  | cons e es ih =>
    intro acc
    simp only [List.foldl_cons]
    have h1 := notes_foldl_score_le e notes hn acc
    have h2 := ih (notes.foldl
      (fun acc2 n => if hitMatch e n then acc2 + hitScore n.y else acc2)
      acc)
    exact le_trans h1 h2

/-- Claim C1 counterexample: a live note at `position_y = 1/4` (inside
the judged region, `y <= WHITE_KEY_HEIGHT`) judged by a matching
Pressed event yields delta `1000 - trunc(1000 * 1.05) = -50`: a single
judgment drives the score from 0 to -50, so the delta is not floored at
0 and the score is not a non-negative accumulator. -/
theorem claim_C1_counterexample :
    hitScore (1/4) = -50
    ∧ (checkTimelineCollisions [⟨0, MidiEvents.Pressed, 38, 64⟩]
        { timeline :=
            { current := 0, playing := true, complete := false,
              timer := { elapsed := 0, duration := 30, paused := false } },
          score := 0,
          notes := [⟨38, 1, 2, 1/4⟩] }).score = -50 := by
  constructor
  · norm_num [hitScore, f32toi32, WHITE_KEY_HEIGHT]
  · norm_num [checkTimelineCollisions, collisionScoreDelta, hitMatch,
      hitScore, f32toi32, WHITE_KEY_HEIGHT]

/-- Claim C1 (amended): the score delta of a judged hit is
`1000 - max(0, trunc(1000 * accuracy))` — the floor applies to the
mistake cost, not to the delta. It is non-negative for every judged
position `y >= 1/2` (accuracy <= 1), so such judgments never decrease
the score — in particular the score never decreases while every live
note sits at `y >= 1/2` — but a judged hit at `y <= 99/200` has a
strictly negative delta. -/
theorem claim_C1_amended :
    (∀ y : ℚ, 1/2 ≤ y → 0 ≤ hitScore y)
    ∧ (∀ y : ℚ, y ≤ 99/200 → hitScore y < 0)
    ∧ (∀ (events : List MidiInputKey) (w : WorldState),
      (∀ n ∈ w.notes, 1/2 ≤ n.y) →
      w.score ≤ (checkTimelineCollisions events w).score) := by
  refine ⟨fun y hy => hitScore_nonneg hy, fun y hy => hitScore_neg hy, ?_⟩
  intro events w hn
  rw [checkTimelineCollisions]
  split_ifs with h
  · exact le_refl _
  · have := collisionScoreDelta_nonneg events w.notes hn
    simp only [WorldState.score]
    omega

/-- Claim C1 witness: the amended bounds at concrete inputs — a hit at
`y = 3` has non-negative delta, a hit at `y = 1/4` a negative one, and
a judgment pass over a world whose only live note sits at `y = 3`
does not decrease the score. -/
theorem claim_C1_witness :
    0 ≤ hitScore 3
    ∧ hitScore (1/4) < 0
    ∧ (WorldState.score
        { timeline :=
            { current := 0, playing := true, complete := false,
              timer := { elapsed := 0, duration := 30, paused := false } },
          score := 0,
          notes := [⟨38, 1, 2, 3⟩] })
      ≤ (checkTimelineCollisions [⟨0, MidiEvents.Pressed, 38, 64⟩]
        { timeline :=
            { current := 0, playing := true, complete := false,
              timer := { elapsed := 0, duration := 30, paused := false } },
          score := 0,
          notes := [⟨38, 1, 2, 3⟩] }).score :=
  ⟨claim_C1_amended.1 3 (by norm_num),
   claim_C1_amended.2.1 (1/4) (by norm_num),
   claim_C1_amended.2.2 [⟨0, MidiEvents.Pressed, 38, 64⟩] _
     (by intro n hn; simp only [List.mem_singleton] at hn; subst hn; norm_num)⟩

theorem hitMatch_false_of_above {key : MidiInputKey} {n : Note}
    (h : WHITE_KEY_HEIGHT < n.y) : hitMatch key n = false := by
  simp only [hitMatch, Bool.and_eq_false_imp, decide_eq_false_iff_not]
  intro _
  exact not_le.mpr h

theorem notes_foldl_score_eq (key : MidiInputKey) (notes : List Note)
    (h : ∀ n ∈ notes, hitMatch key n = false) :
    ∀ acc : Int, notes.foldl
      (fun acc2 n => if hitMatch key n then acc2 + hitScore n.y else acc2)
      acc = acc := by
  induction notes with
  | nil => intro acc; simp
  | cons n ns ih =>
    intro acc
    have hn : hitMatch key n = false := h n (List.mem_cons_self _ _)
    have hns : ∀ m ∈ ns, hitMatch key m = false := fun m hm =>
      h m (List.mem_cons_of_mem _ hm)
    simp only [List.foldl_cons, hn, Bool.false_eq_true, if_false]
    exact ih hns acc

theorem collisionScoreDelta_eq_zero (events : List MidiInputKey)
    (notes : List Note)
    (h : ∀ (key : MidiInputKey), ∀ n ∈ notes, hitMatch key n = false) :
    collisionScoreDelta events notes = 0 := by
  rw [collisionScoreDelta]
  suffices hh : ∀ acc : Int, events.foldl
      (fun acc key => notes.foldl
        (fun acc2 n => if hitMatch key n then acc2 + hitScore n.y else acc2)
        acc)
      acc = acc by exact hh 0
  induction events with
  | nil => intro acc; simp
  | cons e es ih =>
    intro acc
    simp only [List.foldl_cons, notes_foldl_score_eq e notes (h e) acc]
    exact ih acc

/-- Claim C2 counterexample: a live note spawned at the top of the
timeline (`position_y = TIMELINE_TOP = 30`) is NOT matched by a Pressed
event on its key: the judgment pass leaves the world unchanged — no
despawn and no score delta — because of the explicit
`transform.translation.y <= WHITE_KEY_HEIGHT` gate. -/
theorem claim_C2_counterexample :
    checkTimelineCollisions [⟨0, MidiEvents.Pressed, 38, 64⟩]
      ⟨⟨1, true, false, ⟨1, 30, false⟩⟩, 0, [⟨38, 1, 2, 30⟩]⟩
      = ⟨⟨1, true, false, ⟨1, 30, false⟩⟩, 0, [⟨38, 1, 2, 30⟩]⟩ := by
  norm_num [checkTimelineCollisions, collisionScoreDelta, hitMatch,
    WHITE_KEY_HEIGHT]

/-- Claim C2 (amended): the judgment engine has an explicit too-early
gate: an event never matches a note whose `position_y` lies above
`WHITE_KEY_HEIGHT`, and a judgment pass over a world in which every
live note is above the strike line changes nothing — no despawn, no
score delta. A matching key id alone is not sufficient for a match. -/
theorem claim_C2_amended :
    (∀ (key : MidiInputKey) (n : Note), WHITE_KEY_HEIGHT < n.y →
      hitMatch key n = false)
    ∧ (∀ (events : List MidiInputKey) (w : WorldState),
      (∀ n ∈ w.notes, WHITE_KEY_HEIGHT < n.y) →
      checkTimelineCollisions events w = w) := by
  constructor
  · intro key n h
    exact hitMatch_false_of_above h
  · intro events w hn
    rw [checkTimelineCollisions]
    split_ifs with h
    · rfl
    · have hfalse : ∀ (key : MidiInputKey), ∀ n ∈ w.notes,
          hitMatch key n = false := fun key n hmem =>
        hitMatch_false_of_above (hn n hmem)
      rw [collisionScoreDelta_eq_zero events w.notes hfalse]
      have hfilter :
          w.notes.filter (fun n => ¬ events.any (fun e => hitMatch e n))
            = w.notes := by
        apply List.filter_eq_self.mpr
        intro n hmem
        simp only [List.any_eq_true, decide_eq_true_eq]
        push_neg
        intro e _
        simp [hfalse e n hmem]
      rw [hfilter, add_zero]

/-- Claim C2 witness: the gate at concrete inputs — a Holding event on
key 39 fails to match a note at `y = 29`, and a judgment pass over a
world holding notes at `y = 29` and `y = 12` leaves it unchanged. -/
theorem claim_C2_witness :
    hitMatch ⟨3, MidiEvents.Holding, 39, 80⟩ ⟨39, 2, 3/2, 29⟩ = false
    ∧ checkTimelineCollisions [⟨3, MidiEvents.Holding, 39, 80⟩]
      ⟨⟨2, true, false, ⟨2, 30, false⟩⟩, 500,
        [⟨39, 2, 3/2, 29⟩, ⟨40, 3, 2, 12⟩]⟩
      = ⟨⟨2, true, false, ⟨2, 30, false⟩⟩, 500,
        [⟨39, 2, 3/2, 29⟩, ⟨40, 3, 2, 12⟩]⟩ :=
  ⟨claim_C2_amended.1 ⟨3, MidiEvents.Holding, 39, 80⟩ ⟨39, 2, 3/2, 29⟩
      (by norm_num [WHITE_KEY_HEIGHT]),
   claim_C2_amended.2 [⟨3, MidiEvents.Holding, 39, 80⟩] _
      (by
        intro n hn
        simp only [List.mem_cons, List.not_mem_nil, or_false] at hn
        rcases hn with h | h <;> subst h <;> norm_num [WHITE_KEY_HEIGHT])⟩

/-- Claim C6 counterexample: a Released event on key 38 against a live
note at `y = 3` (below the strike line) DOES perform judgment: the note
is despawned and the score rises by 500 — `check_timeline_collisions`
never inspects the event kind. -/
theorem claim_C6_counterexample :
    checkTimelineCollisions [⟨0, MidiEvents.Released, 38, 64⟩]
      ⟨⟨0, true, false, ⟨10, 30, false⟩⟩, 0, [⟨38, 1, 2, 3⟩]⟩
      = ⟨⟨0, true, false, ⟨10, 30, false⟩⟩, 500, []⟩ := by
  norm_num [checkTimelineCollisions, collisionScoreDelta, hitMatch,
    hitScore, f32toi32, WHITE_KEY_HEIGHT]

/-- Claim C6 (amended): the timeline-scoring path is blind to the event
kind: an event of kind Released is judged exactly as the same event
with kind Pressed or Holding — same matches, same despawns, same score
delta. Only the key id, the note's stored id and its y position decide
judgment. -/
theorem claim_C6_amended :
    ∀ (ts : Nat) (k1 k2 : MidiEvents) (id inten : Nat) (w : WorldState),
      checkTimelineCollisions [⟨ts, k1, id, inten⟩] w
        = checkTimelineCollisions [⟨ts, k2, id, inten⟩] w := by
  intro ts k1 k2 id inten w
  rfl

/-- Claim C3 counterexample: at octave 0 (offset 36) the scheduler
spawns the first chart item (note 38) storing `PianoKeyId = 38` — the
raw device note — not the claimed `logical_key = 38 - 36 = 2`. -/
theorem claim_C3_counterexample :
    (spawnMusicTimeline 0 ⟨⟨0, true, false, ⟨2, 30, false⟩⟩, 0, []⟩).map
        (fun w => w.notes.map Note.keyId) = some [38]
    ∧ octaveOffsetU8 0 = 36
    ∧ (38 : Nat) - octaveOffsetU8 0 = 2
    ∧ (38 : Nat) ≠ 2 := by
  refine ⟨?_, by decide, by decide, by decide⟩
  simp [spawnMusicTimeline, MUSIC_TIMELINE, spawnRealIndex,
    octaveOffsetU8, get_octave, u8Sub]

/-- Claim C3 (amended): a spawned note stores the chart item's raw
device note as its key id (the octave offset only shapes the x
placement, not the stored id), and the judgment engine matches an event
against a live note exactly when the event's `key.id` equals that
stored raw id while the note sits at or below the strike line — no
octave offset enters the match. -/
theorem claim_C3_amended :
    (∀ (octave : Int) (w w' : WorldState),
      spawnMusicTimeline octave w = some w' →
      w'.notes.map Note.keyId = w.notes.map Note.keyId ∨
      ∃ item, MUSIC_TIMELINE.get? w.timeline.current = some item ∧
        w'.notes.map Note.keyId = w.notes.map Note.keyId ++ [item.note])
    ∧ (∀ (key : MidiInputKey) (n : Note),
      hitMatch key n = true ↔ n.keyId = key.id ∧ n.y ≤ WHITE_KEY_HEIGHT) := by
  constructor
  · intro octave w w' h
    rw [spawnMusicTimeline] at h
    by_cases hc : w.timeline.complete = true
    · rw [if_pos hc] at h; left; cases h; rfl
    · rw [if_neg hc] at h
      rcases hget : MUSIC_TIMELINE.get? w.timeline.current with _ | item
      · rw [hget] at h; dsimp only at h; cases h
      · rw [hget] at h; dsimp only at h
        by_cases hdue : item.time ≤ w.timeline.timer.elapsed
        · rw [if_pos hdue] at h
          rcases hidx : spawnRealIndex octave item.note with _ | ri
          · rw [hidx] at h; dsimp only at h; cases h
          · rw [hidx] at h; dsimp only at h
            injection h with h'
            right
            refine ⟨item, rfl, ?_⟩
            rw [← h']
            simp
        · rw [if_neg hdue] at h; left; cases h; rfl
  · intro key n
    simp [hitMatch]

/-- Claim C3 witness: the amended statement at concrete inputs — the
spawn at octave 0 from a due state appends stored id 38 (the raw chart
note), and an event with `key.id = 38` matches a note with stored id 38
at `y = 3`. -/
theorem claim_C3_witness :
    (WorldState.notes
        ⟨⟨1, true, false, ⟨2, 30, false⟩⟩, 0, [⟨38, 1, 1, 30⟩]⟩).map
        Note.keyId
      = (WorldState.notes ⟨⟨0, true, false, ⟨2, 30, false⟩⟩, 0, []⟩).map
          Note.keyId ++ [38]
    ∧ hitMatch ⟨0, MidiEvents.Pressed, 38, 64⟩ ⟨38, 1, 2, 3⟩ = true := by
  constructor
  · have h : spawnMusicTimeline 0 ⟨⟨0, true, false, ⟨2, 30, false⟩⟩, 0, []⟩
        = some ⟨⟨1, true, false, ⟨2, 30, false⟩⟩, 0, [⟨38, 1, 1, 30⟩]⟩ := by
      have h1 : spawnRealIndex 0 38 = some 2 := by decide
      have h2 : spawnPositionX 2 = 1 := by
        norm_num [spawnPositionX, KEY_ORDER, List.enum]
      norm_num [spawnMusicTimeline, MUSIC_TIMELINE, h1, h2, TIMELINE_TOP]
    have := claim_C3_amended.1 0 _ _ h
    rcases this with h' | ⟨item, hitem, h'⟩
    · simp at h'
    · have : item = ⟨1, 38, 3⟩ := by
        rw [show MUSIC_TIMELINE.get? (WorldState.timeline
          ⟨⟨0, true, false, ⟨2, 30, false⟩⟩, 0, []⟩).current
            = some ⟨1, 38, 3⟩ from rfl] at hitem
        exact (Option.some.inj hitem).symm
      rw [this] at h'
      exact h'
  · exact (claim_C3_amended.2 ⟨0, MidiEvents.Pressed, 38, 64⟩
      ⟨38, 1, 2, 3⟩).mpr ⟨rfl, by norm_num [WHITE_KEY_HEIGHT]⟩

theorem spawn_current_le {octave : Int} {w w' : WorldState}
    (h : spawnMusicTimeline octave w = some w') :
    w.timeline.current ≤ w'.timeline.current := by
  rw [spawnMusicTimeline] at h
  by_cases hc : w.timeline.complete = true
  · rw [if_pos hc] at h; cases h; exact le_refl _
  · rw [if_neg hc] at h
    rcases hget : MUSIC_TIMELINE.get? w.timeline.current with _ | item
    · rw [hget] at h; dsimp only at h; cases h
    · rw [hget] at h; dsimp only at h
      by_cases hdue : item.time ≤ w.timeline.timer.elapsed
      · rw [if_pos hdue] at h
        rcases hidx : spawnRealIndex octave item.note with _ | ri
        · rw [hidx] at h; dsimp only at h; cases h
        · rw [hidx] at h; dsimp only at h
          injection h with h'
          rw [← h']
          by_cases hlen : MUSIC_TIMELINE.length > w.timeline.current + 1
          · rw [if_pos hlen]; exact Nat.le_succ _
          · rw [if_neg hlen]
      · rw [if_neg hdue] at h; cases h; exact le_refl _

/-- Claim C4 counterexample: pressing Start and letting 4 seconds of
clock elapse, the three chart items all spawn; the third spawn sets
`complete := true` but leaves `current = 2`, while the chart length is
3 — so `complete = true` holds with `current ≠ chart.len()`. -/
theorem claim_C4_counterexample :
    (runGame initWorld
        [GameOp.startBtn, GameOp.animateStep 4, GameOp.spawnStep 0,
         GameOp.spawnStep 0, GameOp.spawnStep 0]).map
      (fun w => (w.timeline.complete, w.timeline.current)) = some (true, 2)
    ∧ MUSIC_TIMELINE.length = 3
    ∧ (2 : Nat) ≠ 3 := by
  refine ⟨?_, by decide, by decide⟩
  have h1 : spawnRealIndex 0 38 = some 2 := by decide
  have h2 : spawnRealIndex 0 39 = some 3 := by decide
  have h3 : spawnRealIndex 0 40 = some 4 := by decide
  norm_num [runGame, applyOp, startButton, animateMusicTimeline,
    spawnMusicTimeline, initWorld, startTimer, TimerState.tick,
    MUSIC_TIMELINE, h1, h2, h3, TIMELINE_TOTAL_TIME, TIMELINE_TOP,
    notePositionY, TIMELINE_LENGTH]

/-- Claim C4 (amended): across every scheduler/judgment system
execution other than the Reset button, `MusicTimelineState.current`
never decreases. But `complete` does not become true exactly when
`current` reaches the chart length: a successful spawn that sets
`complete` leaves `current` at `chart.len() - 1` (the cursor is not
advanced on the final item), and the debug tick also sets `complete`
whenever the session timer has finished, regardless of `current`. -/
theorem claim_C4_amended :
    (∀ (w : WorldState) (op : GameOp) (w' : WorldState),
      applyOp w op = some w' → op ≠ GameOp.resetBtn →
      w.timeline.current ≤ w'.timeline.current)
    ∧ (∀ (octave : Int) (w w' : WorldState),
      spawnMusicTimeline octave w = some w' →
      w.timeline.complete = false → w'.timeline.complete = true →
      w'.timeline.current = w.timeline.current
        ∧ MUSIC_TIMELINE.length = w.timeline.current + 1)
    ∧ (∀ (delta : ℚ) (w : WorldState),
      (debugGameTick delta w).timeline.complete = true ↔
        (w.timeline.timer.tick delta).finished = true
          ∨ w.timeline.complete = true) := by
  refine ⟨?_, ?_, ?_⟩
  · intro w op w' h hne
    cases op with
    | spawnStep octave => exact spawn_current_le h
    | animateStep delta => cases h; exact le_refl _
    | debugTick delta =>
      cases h
      rw [debugGameTick]
      split_ifs <;> exact le_refl _
    | startBtn =>
      cases h
      rw [startButton]
      split_ifs <;> exact le_refl _
    | pauseBtn =>
      cases h
      rw [pauseButton]
      split_ifs <;> exact le_refl _
    | unpauseBtn =>
      cases h
      rw [unpauseButton]
      split_ifs <;> exact le_refl _
    | resetBtn => exact absurd rfl hne
    | collisions events =>
      cases h
      rw [checkTimelineCollisions]
      split_ifs <;> exact le_refl _
    | clearNotes => cases h; exact le_refl _
  · intro octave w w' h hc0 hc1
    rw [spawnMusicTimeline] at h
    rw [if_neg (by rw [hc0]; exact Bool.false_ne_true)] at h
    rcases hget : MUSIC_TIMELINE.get? w.timeline.current with _ | item
    · rw [hget] at h; dsimp only at h; cases h
    · rw [hget] at h; dsimp only at h
      by_cases hdue : item.time ≤ w.timeline.timer.elapsed
      · rw [if_pos hdue] at h
        rcases hidx : spawnRealIndex octave item.note with _ | ri
        · rw [hidx] at h; dsimp only at h; cases h
        · rw [hidx] at h; dsimp only at h
          injection h with h'
          by_cases hlen : MUSIC_TIMELINE.length > w.timeline.current + 1
          · rw [if_pos hlen] at h'
            rw [← h'] at hc1
            simp only at hc1
            rw [hc0] at hc1
            exact absurd hc1 Bool.false_ne_true
          · rw [if_neg hlen] at h'
            constructor
            · rw [← h']
            · have hlt : w.timeline.current < MUSIC_TIMELINE.length := by
                rcases List.get?_eq_some.mp hget with ⟨hl, _⟩
                exact hl
              omega
      · rw [if_neg hdue] at h
        cases h
        rw [hc0] at hc1
        exact absurd hc1 Bool.false_ne_true
  · intro delta w
    rw [debugGameTick]
    split_ifs with h
    · simp [h]
    · simp only []
      constructor
      · intro hc; exact Or.inr hc
      · intro hc
        rcases hc with hc | hc
        · exact absurd hc h
        · exact hc

/-- Claim C4 witness: the amended statement at concrete inputs — an
animate tick preserves the cursor of the initial world, and the spawn
of the final chart item (from `current = 2` with 4 seconds elapsed at
octave 0) sets `complete` while leaving `current = 2 = chart length - 1`. -/
theorem claim_C4_witness :
    initWorld.timeline.current
      ≤ (animateMusicTimeline 1 initWorld).timeline.current
    ∧ ((WorldState.timeline
          ⟨⟨2, true, true, ⟨4, 30, false⟩⟩, 0, [⟨40, 3, 2, 30⟩]⟩).current
        = (WorldState.timeline
          ⟨⟨2, true, false, ⟨4, 30, false⟩⟩, 0, []⟩).current
      ∧ MUSIC_TIMELINE.length
        = (WorldState.timeline
          ⟨⟨2, true, false, ⟨4, 30, false⟩⟩, 0, []⟩).current + 1) := by
  constructor
  · exact claim_C4_amended.1 initWorld (GameOp.animateStep 1) _ rfl
      (by simp)
  · refine claim_C4_amended.2.1 0
      ⟨⟨2, true, false, ⟨4, 30, false⟩⟩, 0, []⟩
      ⟨⟨2, true, true, ⟨4, 30, false⟩⟩, 0, [⟨40, 3, 2, 30⟩]⟩ ?_ rfl rfl
    have h3 : spawnRealIndex 0 40 = some 4 := by decide
    have hx : spawnPositionX 4 = 2 := by
      norm_num [spawnPositionX, KEY_ORDER, List.enum]
    norm_num [spawnMusicTimeline, MUSIC_TIMELINE, h3, hx, TIMELINE_TOP]

/-- Claim C5 counterexample: Reset applied to a mid-session state with
`complete = true` and one live note zeroes `current`, `playing` and the
score, but leaves `complete = true` (not false) and leaves the live
note in the scene (nothing is cleared — the source carries a TODO for
exactly this). -/
theorem claim_C5_counterexample :
    resetButton ⟨⟨2, true, true, ⟨5, 30, false⟩⟩, 700, [⟨38, 1, 2, 10⟩]⟩
      = ⟨⟨0, false, true, ⟨0, 30, true⟩⟩, 0, [⟨38, 1, 2, 10⟩]⟩
    ∧ (WorldState.timeline
        ⟨⟨0, false, true, ⟨0, 30, true⟩⟩, 0, [⟨38, 1, 2, 10⟩]⟩).complete
      = true
    ∧ (WorldState.notes
        ⟨⟨0, false, true, ⟨0, 30, true⟩⟩, 0, [⟨38, 1, 2, 10⟩]⟩) ≠ [] := by
  refine ⟨rfl, rfl, by simp⟩

/-- Claim C5 (amended): Reset sets `current = 0`, `playing = false`,
`score = 0`, and resets and pauses the timer — but it leaves `complete`
unchanged and clears no live `FallingNote`: the scene keeps every note
it had. -/
theorem claim_C5_amended :
    ∀ w : WorldState,
      resetButton w
        = ⟨⟨0, false, w.timeline.complete,
            ⟨0, w.timeline.timer.duration, true⟩⟩, 0, w.notes⟩ := by
  intro w
  rfl

/-- Claim C10 counterexample: octave 22 is above 3 and makes the raw
offset negative (`(3 - 22) * 12 = -228`), yet the spawn-time `u8`
subtraction does NOT underflow: the cast wraps the offset to 28 and
`38 - 28 = 10` succeeds. Likewise octave -19 gives a raw offset 264
exceeding the smallest chart note 38, yet wraps to 8 and succeeds. -/
theorem claim_C10_counterexample :
    (3 : Int) < 22
    ∧ get_octave 22 < 0
    ∧ spawnRealIndex 22 38 = some 10
    ∧ (38 : Int) < get_octave (-19)
    ∧ spawnRealIndex (-19) 38 = some 30 := by
  decide

/-- Claim C10 (amended): the spawn-time subtraction
`note - octave_offset` is well-defined (no panic) exactly when the
octave offset AFTER the `u8` cast (i.e. `(3 - octave) * 12 mod 256`)
does not exceed the note, in which case it yields their difference;
some octave settings do underflow (octave -1 casts to offset 48 > 38;
octave 4 casts to 244 > 38) — but not every octave above 3 nor every
octave whose raw offset exceeds the smallest chart note, because the
cast wraps modulo 256. -/
theorem claim_C10_amended :
    (∀ (octave : Int) (note : Nat),
      (spawnRealIndex octave note).isSome = true
        ↔ octaveOffsetU8 octave ≤ note)
    ∧ (∀ (octave : Int) (note r : Nat),
      spawnRealIndex octave note = some r →
      r = note - octaveOffsetU8 octave)
    ∧ spawnRealIndex (-1) 38 = none
    ∧ spawnRealIndex 4 38 = none := by
  refine ⟨?_, ?_, by decide, by decide⟩
  · intro octave note
    rw [spawnRealIndex, u8Sub]
    split_ifs with h
    · simp [h]
    · simp [h]
  · intro octave note r h
    rw [spawnRealIndex, u8Sub] at h
    split_ifs at h with hle
    exact (Option.some.inj h).symm

/-- Claim C10 witness: octave 0 casts to offset 36, which does not
exceed chart note 38, so the subtraction is defined and yields 2. -/
theorem claim_C10_witness :
    ((spawnRealIndex 0 38).isSome = true ↔ octaveOffsetU8 0 ≤ 38)
    ∧ (2 : Nat) = 38 - octaveOffsetU8 0 :=
  ⟨claim_C10_amended.1 0 38,
   claim_C10_amended.2.1 0 38 2 (by decide)⟩

end BevyMidi
